import Mathlib

/-!
# Verification of the record synchronization & audit-logging core

Shallow embedding of the logic of `src/DB_Editor.py`, `src/csv_importer.py`
and `src/pages/History_Viewer.py` (a Streamlit CRUD dashboard over a hosted
Supabase table), together with proofs settling the specification claims
about the field normalizer, the identifier allocator, the change recorder
(`log_database_change`) and the change viewer (`display_json_diff`).

Modelling conventions:
* Python values are the inductive type `PyVal`: `None`, `int`, `float`
  (modelled as rationals, so NaN/inf float literals are out of scope),
  `str`, `list`, `dict` (association list keyed by strings), numpy numeric
  wrapper scalars (objects with `dtype`/`item`, wrapping a finite numeric),
  and the null-like sentinel `nan` (native NaN / NaT, i.e. values on which
  `pd.isna` is true).
* The Supabase backend is an environment of oracles (`DBEnv`): whether the
  max-id read succeeds and what it returns, whether primary-table mutations
  succeed, whether the audit-trail insert succeeds, and the current session
  user.  Store mutations are recorded as an explicit trace (`StoreOp`).
* Python `try/except` blocks are embedded with `Except` internally; a
  caught exception becomes the `.error` branch and the handler's return
  value.
* `get_text k` is modelled as the translation key itself; the UUID `id`
  field and the wall-clock `modified_at` timestamp of an audit entry are
  omitted: they are fresh nondeterministic outputs that no claim examines.
-/

namespace DBEditor

/-- Python runtime values, as far as the audited code manipulates them. -/
inductive PyVal where
  | none
  | int (n : Int)
  | float (q : ℚ)
  | str (s : String)
  | list (xs : List PyVal)
  | dict (xs : List (String × PyVal))
  | npInt (n : Int)
  | npFloat (q : ℚ)
  | nan

/-- JSON documents as Python's `json` module produces and parses them
(`json.dumps` / `json.loads`); integer and real numbers stay distinct
through the text form (`1` vs `1.0`), so the AST keeps them apart. -/
inductive Json where
  | null
  | jint (n : Int)
  | jfloat (q : ℚ)
  | jstr (s : String)
  | jarr (xs : List Json)
  | jobj (xs : List (String × Json))

/-- Python truthiness (`if obj:`) for the modelled values; note that a
native NaN is truthy while `None`, `0`, `""` and empty containers are
falsy. -/
def py_truthy : PyVal → Bool
  | .none => false
  | .int n => n ≠ 0
  | .float q => q ≠ 0
  | .str s => s ≠ ""
  | .list xs => !xs.isEmpty
  | .dict xs => !xs.isEmpty
  | .npInt n => n ≠ 0
  | .npFloat q => q ≠ 0
  | .nan => true

/-- `pd.isna` on the scalar values the forms hand in: true exactly on
`None` and the NaN/NaT sentinel. -/
def py_isna : PyVal → Bool
  | .none => true
  | .nan => true
  | _ => false

/-- Python `str(obj)` for the modelled values.  Only the string and integer
cases are ever observed by a claim; the remaining cases are a plausible
rendering kept total. -/
def py_str : PyVal → String
  | .none => "None"
  | .int n => toString n
  | .float q => toString q
  | .str s => s
  | .list _ => "[...]"
  | .dict _ => "{...}"
  | .npInt n => toString n
  | .npFloat q => toString q
  | .nan => "nan"

mutual

/-- `convert_to_serializable` from `log_database_change`
(src/DB_Editor.py:94-112): `None` stays `None`, dictionaries and lists
recurse, numpy wrappers are unwrapped via `.item()`, `pd.isna` values
become `None`, and native ints/floats/strings pass through (the final
fallback coercion is the identity on them). -/
def convert_to_serializable : PyVal → PyVal
  | .none => .none
  | .dict xs => .dict (convertDict xs)
  | .list xs => .list (convertList xs)
  | .npInt n => .int n
  | .npFloat q => .float q
  | .nan => .none
  | .float q => .float q
  | .int n => .int n
  | .str s => .str s

/-- Elementwise `convert_to_serializable` over a Python list. -/
def convertList : List PyVal → List PyVal
  | [] => []
  | v :: vs => convert_to_serializable v :: convertList vs

/-- Valuewise `convert_to_serializable` over a Python dict. -/
def convertDict : List (String × PyVal) → List (String × PyVal)
  | [] => []
  | (k, v) :: kvs => (k, convert_to_serializable v) :: convertDict kvs

end

mutual

/-- `json.dumps` on a Python value: `Option.none` models the `TypeError`
raised on a value the encoder does not know (numpy scalars, NaT). -/
def dumps : PyVal → Option Json
  | .none => some .null
  | .int n => some (.jint n)
  | .float q => some (.jfloat q)
  | .str s => some (.jstr s)
  | .list xs => (dumpsList xs).map .jarr
  | .dict xs => (dumpsDict xs).map .jobj
  | .npInt _ => Option.none
  | .npFloat _ => Option.none
  | .nan => Option.none

/-- `json.dumps` over the elements of a list. -/
def dumpsList : List PyVal → Option (List Json)
  | [] => some []
  | v :: vs =>
    match dumps v, dumpsList vs with
    | some j, some js => some (j :: js)
    | _, _ => Option.none

/-- `json.dumps` over the entries of a dict. -/
def dumpsDict : List (String × PyVal) → Option (List (String × Json))
  | [] => some []
  | (k, v) :: kvs =>
    match dumps v, dumpsDict kvs with
    | some j, some js => some ((k, j) :: js)
    | _, _ => Option.none

end

mutual

/-- `json.loads` of a stored document, as the history viewer performs it:
every JSON node maps back to the corresponding native Python value. -/
def loads : Json → PyVal
  | .null => .none
  | .jint n => .int n
  | .jfloat q => .float q
  | .jstr s => .str s
  | .jarr xs => .list (loadsList xs)
  | .jobj xs => .dict (loadsDict xs)

/-- `json.loads` over the elements of an array. -/
def loadsList : List Json → List PyVal
  | [] => []
  | j :: js => loads j :: loadsList js

/-- `json.loads` over the entries of an object. -/
def loadsDict : List (String × Json) → List (String × PyVal)
  | [] => []
  | (k, j) :: js => (k, loads j) :: loadsDict js

end

/-! ## Numeric string parsing (Python `float(str)` on decimal literals) -/

/-- Value of a digit string read in base 10. -/
def digitsToNat (cs : List Char) : Nat :=
  cs.foldl (fun a c => a * 10 + (c.toNat - 48)) 0

/-- Python `float(s)` on an unsigned decimal literal: digits with at most
one dot and at least one digit overall; the value of `a.b` is the exact
rational `(a·10^|b| + b) / 10^|b|`.  Exponent, infinity and whitespace
forms are outside this model; no claim exercises them. -/
def parseUnsignedDecimal (cs : List Char) : Option ℚ :=
  match cs.splitOn '.' with
  | [intPart] =>
    if intPart ≠ [] ∧ intPart.all Char.isDigit then
      some (mkRat (digitsToNat intPart) 1)
    else Option.none
  | [intPart, fracPart] =>
    if (intPart ≠ [] ∨ fracPart ≠ []) ∧ intPart.all Char.isDigit ∧
        fracPart.all Char.isDigit then
      some (mkRat
        (digitsToNat intPart * 10 ^ fracPart.length + digitsToNat fracPart)
        (10 ^ fracPart.length))
    else Option.none
  | _ => Option.none

/-- Python `float(s)`: an optional sign followed by an unsigned decimal
literal; `Option.none` models the `ValueError` raised otherwise. -/
def parseFloat (s : String) : Option ℚ :=
  match s.toList with
  | '-' :: rest => (parseUnsignedDecimal rest).map (fun q => -q)
  | '+' :: rest => parseUnsignedDecimal rest
  | cs => parseUnsignedDecimal cs

/-- Python `int(x)` on a float: truncation toward zero. -/
def truncInt (q : ℚ) : Int := q.num.tdiv q.den

/-! ## Field normalization -/

/-- The columns both mutation paths force to integers
(src/DB_Editor.py:346, 417). -/
def int_fields : List String :=
  ["Frequency (Hz)", "Phase", "Outlet (mm)", "Pass Solid Dia(mm)"]

/-- The columns the mutation paths force to floats (src/DB_Editor.py:361,
435). -/
def float_fields : List String := ["Max Head (M)"]

/-- Result of normalizing one field: the field is either dropped from the
cleaned map (`continue` after a caught parse error, or the skipped
`DB ID` key) or kept with a cleaned value (possibly `None`). -/
inductive FieldResult where
  | dropped
  | kept (v : PyVal)

/-- Python `value == ""` on the modelled values: true exactly for the
empty string. -/
def is_empty_str : PyVal → Bool
  | .str s => s = ""
  | _ => false

/-- One iteration of the cleaning loop of `insert_pump_data`
(src/DB_Editor.py:339-371).  Empty or NA values become `None`;
integer-policy fields truncate floats and numeric strings (a string that
fails to parse raises `ValueError`, which is caught and the field
skipped); float-policy fields convert any value via `float(...)` (where a
non-numeric container raises an uncaught `TypeError`, modelled as
`Except.error`); all other fields are coerced with `str(...)`. -/
def insert_clean_field (key : String) (value : PyVal) :
    Except Unit FieldResult :=
  if is_empty_str value ∨ py_isna value then .ok (.kept .none)
  else if key ∈ int_fields then
    match value with
    | .float q => .ok (.kept (.int (truncInt q)))
    | .npFloat q => .ok (.kept (.int (truncInt q)))
    | .str s =>
      match parseFloat s with
      | some q => .ok (.kept (.int (truncInt q)))
      | Option.none => .ok .dropped
    | v => .ok (.kept v)
  else if key ∈ float_fields then
    match value with
    | .int n => .ok (.kept (.float n))
    | .float q => .ok (.kept (.float q))
    | .npInt n => .ok (.kept (.float n))
    | .npFloat q => .ok (.kept (.float q))
    | .str s =>
      match parseFloat s with
      | some q => .ok (.kept (.float q))
      | Option.none => .ok .dropped
    | _ => .error ()
  else .ok (.kept (.str (py_str value)))

/-- The whole cleaning loop of `insert_pump_data` over the raw field map:
each field is handled independently; only an uncaught `TypeError` from a
float-policy field aborts the loop (and with it the insert). -/
def insert_clean_map : List (String × PyVal) →
    Except Unit (List (String × PyVal))
  | [] => .ok []
  | (k, v) :: rest =>
    match insert_clean_field k v, insert_clean_map rest with
    | .ok .dropped, .ok tail => .ok tail
    | .ok (.kept w), .ok tail => .ok ((k, w) :: tail)
    | .error e, _ => .error e
    | _, .error e => .error e

/-- The guard `value.replace('.', '', 1).isdigit()` used by
`update_pump_data` before parsing a string (src/DB_Editor.py:418): after
removing the first dot, the string must be nonempty and all digits. -/
def removeFirstDot : List Char → List Char
  | [] => []
  | c :: cs => if c = '.' then cs else c :: removeFirstDot cs

/-- `update_pump_data`'s numeric-string test: digits with at most one
decimal point.  Negative or exponent-form numeric strings fail it. -/
def looks_numeric_update (s : String) : Bool :=
  let cs := removeFirstDot s.toList
  !cs.isEmpty && cs.all Char.isDigit

/-- One iteration of the cleaning loop of `update_pump_data`
(src/DB_Editor.py:406-448).  `DB ID` is skipped; empty or NA values become
`None`; integer- and float-policy fields are parsed only when the value is
already numeric or a string passing `looks_numeric_update`, and every
other value is set to `None`; remaining fields are coerced with
`str(...)`. -/
def update_clean_field (key : String) (value : PyVal) : FieldResult :=
  if key = "DB ID" then .dropped
  else if is_empty_str value ∨ py_isna value then .kept .none
  else if key ∈ int_fields then
    match value with
    | .int n => .kept (.int n)
    | .float q => .kept (.int (truncInt q))
    | .npFloat q => .kept (.int (truncInt q))
    | .str s =>
      if looks_numeric_update s then
        match parseFloat s with
        | some q => .kept (.int (truncInt q))
        | Option.none => .dropped
      else .kept .none
    | _ => .kept .none
  else if key ∈ float_fields then
    match value with
    | .int n => .kept (.float n)
    | .float q => .kept (.float q)
    | .npFloat q => .kept (.float q)
    | .str s =>
      if looks_numeric_update s then
        match parseFloat s with
        | some q => .kept (.float q)
        | Option.none => .dropped
      else .kept .none
    | _ => .kept .none
  else .kept (.str (py_str value))

/-- The whole cleaning loop of `update_pump_data`: total, one result per
field, fields handled independently. -/
def update_clean_map : List (String × PyVal) → List (String × PyVal)
  | [] => []
  | (k, v) :: rest =>
    match update_clean_field k v with
    | .dropped => update_clean_map rest
    | .kept w => (k, w) :: update_clean_map rest

/-! ## CSV importer normalization (src/csv_importer.py:33-54) -/

/-- Integer-policy columns of the CSV importer; note `"Frequency_Hz"`
where the form paths use `"Frequency (Hz)"`. -/
def csv_int_fields : List String :=
  ["Frequency_Hz", "Phase", "Outlet (mm)", "Pass Solid Dia(mm)"]

/-- Float-policy columns of the CSV importer; wider than the form paths'
`float_fields`. -/
def csv_float_fields : List String :=
  ["Max Head (M)", "Head Rated/M", "Q Rated/LPM"]

/-- Per-cell normalization of `import_csv_to_supabase`: NA cells become
`None`; integer and float policy columns parse the cell, with any
`ValueError`/`TypeError` caught and the cell set to `None`; all other
cells are coerced with `str(...)` unless empty. -/
def csv_clean_field (column : String) (value : PyVal) : PyVal :=
  if py_isna value then .none
  else if column ∈ csv_int_fields then
    if is_empty_str value then .none
    else
      match value with
      | .int n => .int n
      | .float q => .int (truncInt q)
      | .npInt n => .int n
      | .npFloat q => .int (truncInt q)
      | .str s =>
        match parseFloat s with
        | some q => .int (truncInt q)
        | Option.none => .none
      | _ => .none
  else if column ∈ csv_float_fields then
    if is_empty_str value then .none
    else
      match value with
      | .int n => .float n
      | .float q => .float q
      | .npInt n => .float n
      | .npFloat q => .float q
      | .str s =>
        match parseFloat s with
        | some q => .float q
        | Option.none => .none
      | _ => .none
  else
    if is_empty_str value then .none else .str (py_str value)

/-! ## Session, audit entries, and the backend environment -/

/-- The shapes of session user objects the recorder's duck-typed actor
resolution distinguishes (src/DB_Editor.py:76-91): a dictionary, an
object with an `email` attribute, an object with only a `username`
attribute, or anything else (used via `str(user)`). -/
inductive UserSession where
  | dictUser (fields : List (String × String))
  | emailUser (email : String)
  | usernameUser (username : String)
  | otherUser (text : String)

/-- Actor resolution of `log_database_change`: dictionary users resolve
via `get('email', get('username', 'unknown'))`, attribute users via
`.email` then `.username`, anything else via `str(user)`; a missing
session yields `"anonymous"`. -/
def resolve_actor : Option UserSession → String
  | Option.none => "anonymous"
  | some (.dictUser fields) =>
    match fields.lookup "email" with
    | some e => e
    | Option.none =>
      match fields.lookup "username" with
      | some u => u
      | Option.none => "unknown"
  | some (.emailUser e) => e
  | some (.usernameUser u) => u
  | some (.otherUser t) => t

/-- One row of the `audit_trail` table as `log_database_change` builds it.
The generated UUID `id` and the wall-clock `modified_at` timestamp are
omitted from the model: they are fresh nondeterministic outputs no claim
examines.  `old_data`/`new_data` hold the JSON documents whose text the
code stores via `json.dumps`, or `null`. -/
structure AuditEntry where
  table_name : String
  record_id : PyVal
  operation : String
  old_data : Option Json
  new_data : Option Json
  modified_by : String
  description : Option String

/-- A mutation sent to the hosted backend, in order of execution.  Failed
calls (raised exceptions) mutate nothing and leave no trace entry. -/
inductive StoreOp where
  | insertRow (table : String) (row : List (String × PyVal))
  | updateRow (table : String) (fields : List (String × PyVal)) (db_id : Int)
  | deleteRow (table : String) (db_id : Int)
  | auditInsert (entry : AuditEntry)

/-- Environment of backend oracles for one handler invocation: the session
user, whether the `audit_trail` insert succeeds, the outcome of the
max-`DB ID` read (`Except.error` models a raised exception, `Except.ok
Option.none` an empty table), whether mutations on the primary table
succeed, and the current record returned by the `select`-by-id that
`update`/`delete` perform first (`Option.none` models an empty result). -/
structure DBEnv where
  session : Option UserSession
  auditInsertOk : Bool
  maxIdRead : Except Unit (Option Int)
  primaryOk : Bool
  currentRecord : Option (List (String × PyVal))

/-- What `log_database_change` stores for one snapshot argument
(src/DB_Editor.py:115-116 and 128-129): a falsy snapshot is replaced by
`None` before conversion (`convert_to_serializable(x) if x else None`),
and a falsy converted snapshot is stored as `null` instead of being
dumped (`json.dumps(clean) if clean else None`).  `Except.error` models a
`json.dumps` `TypeError` escaping to the catch-all handler. -/
def stored_snapshot (snapshot : PyVal) : Except Unit (Option Json) :=
  let clean :=
    if py_truthy snapshot then some (convert_to_serializable snapshot)
    else Option.none
  match clean with
  | some c =>
    if py_truthy c then
      match dumps c with
      | some j => Except.ok (some j)
      | Option.none => Except.error ()
    else Except.ok Option.none
  | Option.none => Except.ok Option.none

/-- The `record_id` coercion of `log_database_change`
(src/DB_Editor.py:119-120): a numpy identifier is unwrapped with
`.item()`; every other value passes through unchanged. -/
def coerce_record_id : PyVal → PyVal
  | .npInt n => .int n
  | .npFloat q => .float q
  | v => v

/-- The body of `log_database_change` (src/DB_Editor.py:71-136), up to the
`audit_trail` insert: resolve the actor, serialize both snapshots, unwrap
a numpy `record_id`, and assemble the row.  `Except.error` models an
exception raised inside the `try` block. -/
def log_database_change_body (env : DBEnv) (table_name : String)
    (record_id : PyVal) (operation : String) (old_data new_data : PyVal)
    (description : Option String) : Except Unit AuditEntry := do
  let user_email := resolve_actor env.session
  let rid := coerce_record_id record_id
  let stored_old ← stored_snapshot old_data
  let stored_new ← stored_snapshot new_data
  Except.ok
    { table_name := table_name
      record_id := rid
      operation := operation
      old_data := stored_old
      new_data := stored_new
      modified_by := user_email
      description := description }

/-- `log_database_change` (src/DB_Editor.py:59-144): the whole body runs
inside a catch-all `try/except`, so the function returns `false` on any
internal failure (including a failing `audit_trail` insert) instead of
raising; on success it returns `true` having written exactly the one
entry.  No argument is validated: `table_name` and `operation` go into
the entry as given. -/
def log_database_change (env : DBEnv) (table_name : String)
    (record_id : PyVal) (operation : String) (old_data new_data : PyVal)
    (description : Option String) : Bool × List StoreOp :=
  match log_database_change_body env table_name record_id operation
      old_data new_data description with
  | .error _ => (false, [])
  | .ok entry =>
    if env.auditInsertOk then (true, [.auditInsert entry])
    else (false, [])

/-- Python `description or fallback` at the mutation call sites: an empty
or missing description is replaced by the generated default. -/
def orDefault (description : Option String) (fallback : String) : String :=
  match description with
  | some s => if s = "" then fallback else s
  | Option.none => fallback

/-- The identifier allocation step of `insert_pump_data`
(src/DB_Editor.py:321-336): on an empty record set the new `DB ID` is
`1`, otherwise the current maximum plus one; a failing read propagates
as the caught `id_error`. -/
def allocate_db_id (maxIdRead : Except Unit (Option Int)) :
    Except Unit Int :=
  match maxIdRead with
  | .error e => .error e
  | .ok Option.none => .ok 1
  | .ok (some m) => .ok (m + 1)

/-- `insert_pump_data` (src/DB_Editor.py:316-389): allocate a `DB ID`
(failure aborts with the generic `could_not_generate_db_id` message and
inserts nothing), normalize the fields, insert the single row, then log
the change; the audit outcome does not influence the reported success.
Message strings are the `get_text` translation keys. -/
def insert_pump_data (env : DBEnv) (pump_data : List (String × PyVal))
    (description : Option String) : (Bool × String) × List StoreOp :=
  match allocate_db_id env.maxIdRead with
  | .error _ => ((false, "could_not_generate_db_id"), [])
  | .ok new_id =>
    match insert_clean_map pump_data with
    | .error _ => ((false, "error_adding_pump"), [])
    | .ok cleaned =>
      let clean_data := ("DB ID", PyVal.int new_id) :: cleaned
      if env.primaryOk then
        let desc := orDefault description ("Added new pump: " ++
          py_str ((clean_data.lookup "Model No.").getD (.str "Unknown")))
        let (_, auditOps) := log_database_change env "pump_selection_data"
          (.int new_id) "INSERT" .none (.dict clean_data) (some desc)
        ((true, "pump_data_added"),
          .insertRow "pump_selection_data" clean_data :: auditOps)
      else ((false, "error_adding_pump"), [])

/-- `update_pump_data` (src/DB_Editor.py:392-488): fetch the current
record, normalize the fields, then — inside the "Remove any problematic
fields" pass — issue one real single-field `update` per cleaned field
("Simulate update with just this field"), then the final combined update,
then log the change.  When the backend rejects updates, every per-field
trial fails and is caught, all fields are removed as problematic, and the
empty map aborts with `no_valid_fields`. -/
def update_pump_data (env : DBEnv) (db_id : Int)
    (pump_data : List (String × PyVal)) (description : Option String) :
    (Bool × String) × List StoreOp :=
  match env.currentRecord with
  | Option.none => ((false, "record_not_found"), [])
  | some old_data =>
    let cleaned := update_clean_map pump_data
    if env.primaryOk then
      let trialOps := cleaned.map
        (fun kv => StoreOp.updateRow "pump_selection_data" [kv] db_id)
      if cleaned.isEmpty then ((false, "no_valid_fields"), trialOps)
      else
        let desc := orDefault description ("Updated pump: " ++
          py_str ((old_data.lookup "Model No.").getD (.str "Unknown")))
        let (_, auditOps) := log_database_change env "pump_selection_data"
          (.int db_id) "UPDATE" (.dict old_data) (.dict cleaned) (some desc)
        ((true, "pump_data_updated"),
          trialOps ++ .updateRow "pump_selection_data" cleaned db_id ::
            auditOps)
    else ((false, "no_valid_fields"), [])

/-- `delete_pump_data` (src/DB_Editor.py:491-517): fetch the record for
the history snapshot, delete it, then log with only an old snapshot; the
audit outcome does not influence the reported success. -/
def delete_pump_data (env : DBEnv) (db_id : Int)
    (description : Option String) : (Bool × String) × List StoreOp :=
  match env.currentRecord with
  | Option.none => ((false, "record_not_found"), [])
  | some old_data =>
    if env.primaryOk then
      let desc := orDefault description ("Deleted pump: " ++
        py_str ((old_data.lookup "Model No.").getD (.str "Unknown")))
      let (_, auditOps) := log_database_change env "pump_selection_data"
        (.int db_id) "DELETE" (.dict old_data) .none (some desc)
      ((true, "pump_data_deleted"),
        .deleteRow "pump_selection_data" db_id :: auditOps)
    else ((false, "error_deleting_pump"), [])

/-! ## Change viewer (src/pages/History_Viewer.py:120-153) -/

/-- The numeric content of a value, for Python `==`, under which `5`,
`5.0` and their numpy wrappers are all equal. -/
def py_numeric : PyVal → Option ℚ
  | .int n => some (n : ℚ)
  | .float q => some q
  | .npInt n => some (n : ℚ)
  | .npFloat q => some q
  | _ => Option.none

mutual

/-- Python `==` on the modelled values: numeric values compare by value
across `int`/`float`, NaN is unequal to itself, strings and `None`
compare structurally, lists elementwise and dicts by key lookup. -/
def py_eq : PyVal → PyVal → Bool
  | .str s, .str t => s == t
  | .none, .none => true
  | .nan, .nan => false
  | .list xs, .list ys => py_eq_list xs ys
  | .dict xs, .dict ys => xs.length == ys.length && py_eq_dict xs ys
  | a, b =>
    match py_numeric a, py_numeric b with
    | some x, some y => x == y
    | _, _ => false

/-- Python `==` on lists: pointwise. -/
def py_eq_list : List PyVal → List PyVal → Bool
  | [], [] => true
  | x :: xs, y :: ys => py_eq x y && py_eq_list xs ys
  | _, _ => false

/-- Python `==` on dicts, one inclusion: every entry of the first dict is
matched by an equal value at the same key in the second (with equal sizes
and unique keys this is dict equality). -/
def py_eq_dict : List (String × PyVal) → List (String × PyVal) → Bool
  | [], _ => true
  | (k, v) :: kvs, ys =>
    (match ys.lookup k with
     | some w => py_eq v w
     | Option.none => false) && py_eq_dict kvs ys

end

/-- One row of the viewer's side-by-side comparison: the value shown on
each side (`Option.none` renders as the `"N/A"` default of
`dict.get(key, "N/A")`) and whether the row is highlighted as changed. -/
structure DiffRow where
  key : String
  old_shown : Option PyVal
  new_shown : Option PyVal
  changed : Bool

/-- `display_json_diff(old_data, new_data)`: when both stored payloads are
missing, show the info message and stop (`Option.none`); otherwise parse
each present payload with `json.loads` (a missing one contributes `{}`),
and render one row per key of the sorted union of key sets.  A row is
highlighted exactly when the key is present in both dicts with values
that differ under Python `==`.  (A stored payload that is not a JSON
object cannot be produced by the recorder; the model reads it as `{}`.)
`parsed_dict` is the `json.loads(x) if x else \x7b\x7d` step. -/
def parsed_dict : Option Json → List (String × PyVal)
  | some j => match loads j with | .dict kvs => kvs | _ => []
  | Option.none => []

/-- Code-point lexicographic comparison on character lists: the order
Python's `sorted` uses on strings. -/
def charListLe : List Char → List Char → Bool
  | [], _ => true
  | _ :: _, [] => false
  | c :: cs, d :: ds => if c = d then charListLe cs ds else decide (c < d)

/-- Python string comparison `s <= t` (code-point lexicographic). -/
def pystr_le (s t : String) : Bool := charListLe s.toList t.toList

/-- Renders the comparison: one row per key of the sorted union of the
two parsed key sets, as described above. -/
def display_json_diff (old_data new_data : Option Json) :
    Option (List DiffRow) :=
  if old_data.isNone && new_data.isNone then Option.none
  else
    let old_dict := parsed_dict old_data
    let new_dict := parsed_dict new_data
    let all_keys := List.insertionSort (fun a b => pystr_le a b = true)
      ((old_dict.map Prod.fst) ++ (new_dict.map Prod.fst)).dedup
    some (all_keys.map (fun k =>
      let ov := old_dict.lookup k
      let nv := new_dict.lookup k
      { key := k
        old_shown := ov
        new_shown := nv
        changed := match ov, nv with
          | some v, some w => !py_eq v w
          | _, _ => false }))

/-- A benign concrete environment for evaluations: anonymous session, all
backend calls succeed, empty table on the max-id read, record 1 present
for update/delete. -/
def env_ok : DBEnv :=
  { session := Option.none
    auditInsertOk := true
    maxIdRead := .ok Option.none
    primaryOk := true
    currentRecord :=
      some [("DB ID", .int 1), ("Model No.", .str "X9"), ("HP", .str "4")] }

/-- `env_ok` but the `audit_trail` insert fails. -/
def env_audit_down : DBEnv := { env_ok with auditInsertOk := false }

/-- `env_ok` but the max-`DB ID` read raises. -/
def env_id_read_down : DBEnv := { env_ok with maxIdRead := .error () }

/-!
## Theorems

Helper lemmas first, then one theorem per specification claim (with its
witness or counterexample where required).
-/

/-- Structural induction for `PyVal` with elementwise hypotheses in the
container cases. -/
theorem PyVal.inductionOn (P : PyVal → Prop)
    (hnone : P .none) (hint : ∀ n, P (.int n)) (hfloat : ∀ q, P (.float q))
    (hstr : ∀ s, P (.str s))
    (hlist : ∀ xs, (∀ v, v ∈ xs → P v) → P (.list xs))
    (hdict : ∀ xs, (∀ k v, (k, v) ∈ xs → P v) → P (.dict xs))
    (hnpint : ∀ n, P (.npInt n)) (hnpfloat : ∀ q, P (.npFloat q))
    (hnan : P .nan) : ∀ v, P v
  | .none => hnone
  | .int n => hint n
  | .float q => hfloat q
  | .str s => hstr s
  | .list xs => hlist xs (fun v hv =>
      PyVal.inductionOn P hnone hint hfloat hstr hlist hdict hnpint
        hnpfloat hnan v)
  | .dict xs => hdict xs (fun k v hv =>
      PyVal.inductionOn P hnone hint hfloat hstr hlist hdict hnpint
        hnpfloat hnan v)
  | .npInt n => hnpint n
  | .npFloat q => hnpfloat q
  | .nan => hnan
termination_by v => sizeOf v
decreasing_by
  · have h := List.sizeOf_lt_of_mem hv
    simp only [PyVal.list.sizeOf_spec]
    omega
  · have h := List.sizeOf_lt_of_mem hv
    have h2 : sizeOf v < sizeOf (k, v) := by simp
    simp only [PyVal.dict.sizeOf_spec]
    omega

/-- Round trip through `convert_to_serializable`, elementwise over a
list. -/
theorem dumpsList_convertList (xs : List PyVal)
    (h : ∀ v, v ∈ xs → ∃ j, dumps (convert_to_serializable v) = some j ∧
      loads j = convert_to_serializable v) :
    ∃ js, dumpsList (convertList xs) = some js ∧
      loadsList js = convertList xs := by
  induction xs with
  | nil => exact ⟨[], rfl, rfl⟩
  | cons v vs ih =>
    obtain ⟨j, hj, hl⟩ := h v (List.mem_cons_self v vs)
    obtain ⟨js, hjs, hls⟩ := ih (fun w hw => h w (List.mem_cons_of_mem v hw))
    exact ⟨j :: js, by simp [convertList, dumpsList, hj, hjs],
      by simp [loadsList, hl, hls, convertList]⟩

/-- Round trip through `convert_to_serializable`, valuewise over a
dict. -/
theorem dumpsDict_convertDict (xs : List (String × PyVal))
    (h : ∀ k v, (k, v) ∈ xs → ∃ j, dumps (convert_to_serializable v) =
      some j ∧ loads j = convert_to_serializable v) :
    ∃ js, dumpsDict (convertDict xs) = some js ∧
      loadsDict js = convertDict xs := by
  induction xs with
  | nil => exact ⟨[], rfl, rfl⟩
  | cons kv kvs ih =>
    obtain ⟨k, v⟩ := kv
    obtain ⟨j, hj, hl⟩ := h k v (List.mem_cons_self (k, v) kvs)
    obtain ⟨js, hjs, hls⟩ :=
      ih (fun l w hw => h l w (List.mem_cons_of_mem (k, v) hw))
    exact ⟨(k, j) :: js, by simp [convertDict, dumpsDict, hj, hjs],
      by simp [loadsDict, hl, hls, convertDict]⟩

/-- Every converted snapshot serializes without error and parses back to
itself. -/
theorem dumps_convert_ok : ∀ v : PyVal,
    ∃ j, dumps (convert_to_serializable v) = some j ∧
      loads j = convert_to_serializable v := by
  refine PyVal.inductionOn _ ⟨.null, rfl, rfl⟩ (fun n => ⟨.jint n, rfl, rfl⟩)
    (fun q => ⟨.jfloat q, rfl, rfl⟩) (fun s => ⟨.jstr s, rfl, rfl⟩) ?_ ?_
    (fun n => ⟨.jint n, rfl, rfl⟩) (fun q => ⟨.jfloat q, rfl, rfl⟩)
    ⟨.null, rfl, rfl⟩
  · intro xs h
    obtain ⟨js, hjs, hls⟩ := dumpsList_convertList xs h
    exact ⟨.jarr js, by simp [convert_to_serializable, dumps, hjs],
      by simp [loads, hls, convert_to_serializable]⟩
  · intro xs h
    obtain ⟨js, hjs, hls⟩ := dumpsDict_convertDict xs h
    exact ⟨.jobj js, by simp [convert_to_serializable, dumps, hjs],
      by simp [loads, hls, convert_to_serializable]⟩

/-- `stored_snapshot` never propagates an exception. -/
theorem stored_snapshot_ok (x : PyVal) :
    ∃ so, stored_snapshot x = Except.ok so := by
  unfold stored_snapshot
  by_cases hx : py_truthy x = true
  · simp only [hx, if_pos]
    obtain ⟨j, hj, _⟩ := dumps_convert_ok x
    by_cases hc : py_truthy (convert_to_serializable x) = true
    · exact ⟨some j, by simp [hc, hj]⟩
    · exact ⟨Option.none, by simp [Bool.not_eq_true] at hc; simp [hc]⟩
  · simp only [Bool.not_eq_true] at hx
    exact ⟨Option.none, by simp [hx]⟩

/-- A falsy snapshot argument is stored as `null`. -/
theorem stored_snapshot_falsy (x : PyVal) (h : py_truthy x = false) :
    stored_snapshot x = Except.ok Option.none := by
  unfold stored_snapshot
  simp [h]

/-- `log_database_change_body` always reaches the insert, producing the
row assembled from its arguments verbatim. -/
theorem log_database_change_body_eq (env : DBEnv) (t : String)
    (rid : PyVal) (op : String) (old new : PyVal) (d : Option String) :
    ∃ so sn, stored_snapshot old = Except.ok so ∧
      stored_snapshot new = Except.ok sn ∧
      log_database_change_body env t rid op old new d = Except.ok
        { table_name := t
          record_id := coerce_record_id rid
          operation := op
          old_data := so
          new_data := sn
          modified_by := resolve_actor env.session
          description := d } := by
  obtain ⟨so, hso⟩ := stored_snapshot_ok old
  obtain ⟨sn, hsn⟩ := stored_snapshot_ok new
  exact ⟨so, sn, hso, hsn, by
    simp [log_database_change_body, hso, hsn, bind, Except.bind]⟩

/-- C1 (amended): `log_database_change` performs no validation of
`operation`: every operation string — `"PATCH"` included — is accepted,
and whenever the `audit_trail` insert succeeds the call returns `true`
having written exactly one entry carrying that operation string. -/
theorem log_database_change_no_operation_validation (env : DBEnv)
    (t : String) (rid : PyVal) (op : String) (old new : PyVal)
    (d : Option String) (h : env.auditInsertOk = true) :
    ∃ e, log_database_change env t rid op old new d =
      (true, [.auditInsert e]) ∧ e.operation = op := by
  obtain ⟨so, sn, _, _, hbody⟩ :=
    log_database_change_body_eq env t rid op old new d
  refine ⟨{ table_name := t
            record_id := coerce_record_id rid
            operation := op
            old_data := so
            new_data := sn
            modified_by := resolve_actor env.session
            description := d }, ?_, rfl⟩
  simp [log_database_change, hbody, h]

/-- C1 (witness): with a succeeding audit insert, an `operation="PATCH"`
call returns `true` and writes a `"PATCH"` entry. -/
theorem log_database_change_no_operation_validation_witness :
    env_ok.auditInsertOk = true ∧
    ∃ e, log_database_change env_ok "pump_selection_data" (.int 7) "PATCH"
      .none (.dict [("Model No.", .str "A1")]) Option.none =
        (true, [.auditInsert e]) ∧ e.operation = "PATCH" :=
  ⟨rfl, log_database_change_no_operation_validation env_ok
    "pump_selection_data" (.int 7) "PATCH" .none
    (.dict [("Model No.", .str "A1")]) Option.none rfl⟩

/-- C1 (counterexample): called with `operation="PATCH"`, the recorder
returns `true` — not `false` — and writes an audit-trail entry. -/
theorem patch_operation_logged :
    log_database_change env_ok "pump_selection_data" (.int 7) "PATCH"
      .none (.dict [("Model No.", .str "A1")]) Option.none =
      (true, [.auditInsert
        { table_name := "pump_selection_data"
          record_id := .int 7
          operation := "PATCH"
          old_data := Option.none
          new_data := some (.jobj [("Model No.", .jstr "A1")])
          modified_by := "anonymous"
          description := Option.none }]) := rfl

/-- C2 (amended): `log_database_change` checks `table_name` against no
allow-list: every table name — `"users"` included — is accepted, and
whenever the `audit_trail` insert succeeds the call returns `true` having
written exactly one entry carrying that table name. -/
theorem log_database_change_no_table_allowlist (env : DBEnv) (t : String)
    (rid : PyVal) (op : String) (old new : PyVal) (d : Option String)
    (h : env.auditInsertOk = true) :
    ∃ e, log_database_change env t rid op old new d =
      (true, [.auditInsert e]) ∧ e.table_name = t := by
  obtain ⟨so, sn, _, _, hbody⟩ :=
    log_database_change_body_eq env t rid op old new d
  refine ⟨{ table_name := t
            record_id := coerce_record_id rid
            operation := op
            old_data := so
            new_data := sn
            modified_by := resolve_actor env.session
            description := d }, ?_, rfl⟩
  simp [log_database_change, hbody, h]

/-- C2 (witness): with a succeeding audit insert, a `table_name="users"`
call returns `true` and writes a `"users"` entry. -/
theorem log_database_change_no_table_allowlist_witness :
    env_ok.auditInsertOk = true ∧
    ∃ e, log_database_change env_ok "users" (.int 3) "UPDATE"
      (.dict [("HP", .str "5")]) (.dict [("HP", .str "7")]) (some "x") =
        (true, [.auditInsert e]) ∧ e.table_name = "users" :=
  ⟨rfl, log_database_change_no_table_allowlist env_ok "users" (.int 3)
    "UPDATE" (.dict [("HP", .str "5")]) (.dict [("HP", .str "7")])
    (some "x") rfl⟩

/-- C2 (counterexample): called with `table_name="users"` (not a loggable
application table), the recorder returns `true` — not `false` — and
writes an audit-trail entry. -/
theorem users_table_logged :
    log_database_change env_ok "users" (.int 3) "UPDATE"
      (.dict [("HP", .str "5")]) (.dict [("HP", .str "7")]) (some "x") =
      (true, [.auditInsert
        { table_name := "users"
          record_id := .int 3
          operation := "UPDATE"
          old_data := some (.jobj [("HP", .jstr "5")])
          new_data := some (.jobj [("HP", .jstr "7")])
          modified_by := "anonymous"
          description := some "x" }]) := rfl

/-- C10: a falsy snapshot argument (in particular the empty dict) is
persisted exactly like an absent one, independently for each argument —
whatever the other snapshot is, a falsy `old_data` makes the call behave
exactly as if `old_data` were `None` and stores `null` in the old column,
and symmetrically for `new_data`; so a logged entry cannot distinguish
"no fields" from "no snapshot". -/
theorem falsy_snapshot_stored_as_null (env : DBEnv) (t : String)
    (rid : PyVal) (op : String) (old new : PyVal) (d : Option String) :
    (py_truthy old = false →
      log_database_change env t rid op old new d =
        log_database_change env t rid op PyVal.none new d ∧
      ∀ e, (log_database_change env t rid op old new d).2 =
          [.auditInsert e] → e.old_data = Option.none) ∧
    (py_truthy new = false →
      log_database_change env t rid op old new d =
        log_database_change env t rid op old PyVal.none d ∧
      ∀ e, (log_database_change env t rid op old new d).2 =
          [.auditInsert e] → e.new_data = Option.none) := by
  obtain ⟨so, sn, hso, hsn, hbody⟩ :=
    log_database_change_body_eq env t rid op old new d
  constructor
  · intro ho
    have hoz := stored_snapshot_falsy old ho
    rw [hso] at hoz
    have hs : so = Option.none := Except.ok.inj hoz
    subst hs
    obtain ⟨so2, sn2, hso2, hsn2, hbody2⟩ :=
      log_database_change_body_eq env t rid op PyVal.none new d
    have hs2 : so2 = Option.none := by
      have h0 := stored_snapshot_falsy PyVal.none rfl
      rw [hso2] at h0
      exact Except.ok.inj h0
    have hs3 : sn2 = sn := by
      have h0 := hsn
      rw [hsn2] at h0
      exact Except.ok.inj h0
    subst hs2 hs3
    refine ⟨by simp only [log_database_change, hbody, hbody2], ?_⟩
    intro e he
    simp only [log_database_change, hbody] at he
    by_cases ha : env.auditInsertOk = true
    · simp only [ha, if_pos] at he
      simp only [List.cons.injEq, StoreOp.auditInsert.injEq] at he
      rw [← he.1]
    · simp only [Bool.not_eq_true] at ha
      simp [ha] at he
  · intro hn
    have hnz := stored_snapshot_falsy new hn
    rw [hsn] at hnz
    have hs : sn = Option.none := Except.ok.inj hnz
    subst hs
    obtain ⟨so2, sn2, hso2, hsn2, hbody2⟩ :=
      log_database_change_body_eq env t rid op old PyVal.none d
    have hs2 : sn2 = Option.none := by
      have h0 := stored_snapshot_falsy PyVal.none rfl
      rw [hsn2] at h0
      exact Except.ok.inj h0
    have hs3 : so2 = so := by
      have h0 := hso
      rw [hso2] at h0
      exact Except.ok.inj h0
    subst hs2 hs3
    refine ⟨by simp only [log_database_change, hbody, hbody2], ?_⟩
    intro e he
    simp only [log_database_change, hbody] at he
    by_cases ha : env.auditInsertOk = true
    · simp only [ha, if_pos] at he
      simp only [List.cons.injEq, StoreOp.auditInsert.injEq] at he
      rw [← he.1]
    · simp only [Bool.not_eq_true] at ha
      simp [ha] at he

/-- C10 (witness): concrete mixed calls — an empty-dict `old_data` beside
a truthy `new_data` is stored exactly like an absent old snapshot, and a
DELETE-shaped call (truthy old, absent new) stores `null` in the new
column of the entry it writes. -/
theorem falsy_snapshot_stored_as_null_witness :
    py_truthy (PyVal.dict []) = false ∧
    log_database_change env_ok "pump_selection_data" (.int 1) "UPDATE"
        (.dict []) (.dict [("HP", .str "7")]) Option.none =
      log_database_change env_ok "pump_selection_data" (.int 1) "UPDATE"
        PyVal.none (.dict [("HP", .str "7")]) Option.none ∧
    ∀ e, (log_database_change env_ok "pump_selection_data" (.int 2)
        "DELETE" (.dict [("HP", .str "4")]) PyVal.none Option.none).2 =
        [.auditInsert e] → e.new_data = Option.none :=
  ⟨rfl,
   ((falsy_snapshot_stored_as_null env_ok "pump_selection_data" (.int 1)
      "UPDATE" (.dict []) (.dict [("HP", .str "7")]) Option.none).1
      rfl).1,
   ((falsy_snapshot_stored_as_null env_ok "pump_selection_data" (.int 2)
      "DELETE" (.dict [("HP", .str "4")]) PyVal.none Option.none).2
      rfl).2⟩

/-- C3: the change recorder never raises past its boundary — a failing
audit insert yields `false` with nothing written — and each primary
mutation whose own store operations succeed reports success regardless of
the audit outcome (the statements put no constraint on
`env.auditInsertOk`). -/
theorem audit_log_best_effort :
    (∀ (env : DBEnv) t rid op old new d, env.auditInsertOk = false →
      log_database_change env t rid op old new d = (false, [])) ∧
    (∀ (env : DBEnv) data d mm cleaned, env.maxIdRead = Except.ok mm →
      insert_clean_map data = Except.ok cleaned →
      env.primaryOk = true →
      (insert_pump_data env data d).1.1 = true) ∧
    (∀ (env : DBEnv) id data d old, env.currentRecord = some old →
      env.primaryOk = true → (update_clean_map data).isEmpty = false →
      (update_pump_data env id data d).1.1 = true) ∧
    (∀ (env : DBEnv) id d old, env.currentRecord = some old →
      env.primaryOk = true → (delete_pump_data env id d).1.1 = true) := by
  refine ⟨?_, ?_, ?_, ?_⟩
  · intro env t rid op old new d h
    unfold log_database_change
    cases hbody : log_database_change_body env t rid op old new d with
    | error e => rfl
    | ok entry => simp [h]
  · intro env data d mm cleaned h1 h2 h3
    cases mm with
    | none => simp [insert_pump_data, allocate_db_id, h1, h2, h3]
    | some m => simp [insert_pump_data, allocate_db_id, h1, h2, h3]
  · intro env id data d old h1 h2 h3
    simp [update_pump_data, h1, h2, h3]
  · intro env id d old h1 h2
    simp [delete_pump_data, h1, h2]

/-- C3 (witness): with the audit insert down but the primary mutations
up, the recorder reports `false` writing nothing, while insert, update
and delete all still report success. -/
theorem audit_log_best_effort_witness :
    log_database_change env_audit_down "pump_selection_data" (.int 1)
      "INSERT" PyVal.none (.dict [("Model No.", .str "X9")]) Option.none =
      (false, []) ∧
    (insert_pump_data env_audit_down [("Model No.", .str "X9")]
      Option.none).1.1 = true ∧
    (update_pump_data env_audit_down 1 [("HP", .str "5")]
      Option.none).1.1 = true ∧
    (delete_pump_data env_audit_down 1 Option.none).1.1 = true :=
  ⟨audit_log_best_effort.1 env_audit_down "pump_selection_data" (.int 1)
      "INSERT" PyVal.none (.dict [("Model No.", .str "X9")]) Option.none
      rfl,
   audit_log_best_effort.2.1 env_audit_down [("Model No.", .str "X9")]
      Option.none Option.none [("Model No.", .str "X9")] rfl rfl rfl,
   audit_log_best_effort.2.2.1 env_audit_down 1 [("HP", .str "5")]
      Option.none _ rfl rfl rfl,
   audit_log_best_effort.2.2.2 env_audit_down 1 Option.none _ rfl rfl⟩

/-- C4: the identifier allocator returns `1` on an empty record set and
`max + 1` otherwise, and a failing max-id read aborts the whole insert —
nothing is sent to the store and the generic
`could_not_generate_db_id` message is returned. -/
theorem identifier_allocator_spec :
    allocate_db_id (Except.ok Option.none) = Except.ok 1 ∧
    (∀ m : Int, allocate_db_id (Except.ok (some m)) = Except.ok (m + 1)) ∧
    (∀ (env : DBEnv) data d, env.maxIdRead = Except.error () →
      insert_pump_data env data d =
        ((false, "could_not_generate_db_id"), [])) := by
  refine ⟨rfl, fun m => rfl, ?_⟩
  intro env data d h
  simp [insert_pump_data, allocate_db_id, h]

/-- C4 (witness): a max identifier of `41` allocates `42`, and with the
id read raising, a concrete insert fails with the generic message and an
empty mutation trace. -/
theorem identifier_allocator_spec_witness :
    allocate_db_id (Except.ok (some 41)) = Except.ok 42 ∧
    insert_pump_data env_id_read_down [("Model No.", .str "X9")]
      Option.none = ((false, "could_not_generate_db_id"), []) :=
  ⟨identifier_allocator_spec.2.1 41,
   identifier_allocator_spec.2.2 env_id_read_down
     [("Model No.", .str "X9")] Option.none rfl⟩

/-- `convertDict` is the valuewise map of `convert_to_serializable`. -/
theorem convertDict_eq_map (kvs : List (String × PyVal)) :
    convertDict kvs =
      kvs.map (fun kv => (kv.1, convert_to_serializable kv.2)) := by
  induction kvs with
  | nil => rfl
  | cons kv rest ih =>
    obtain ⟨k, v⟩ := kv
    simp [convertDict, ih]

/-- C9: the recorder's JSON-safe pass never fails to serialize, parsing
the stored document back (as the viewer does) returns exactly the
converted snapshot, and conversion unwraps numpy numeric wrappers to
native numbers, maps null-like sentinels to `None`, and recurses
valuewise through dictionaries — so a round trip yields the same native
values. -/
theorem snapshot_serialization_roundtrip :
    (∀ v : PyVal, ∃ j, dumps (convert_to_serializable v) = some j ∧
      loads j = convert_to_serializable v) ∧
    (∀ n : Int, convert_to_serializable (.npInt n) = .int n) ∧
    (∀ q : ℚ, convert_to_serializable (.npFloat q) = .float q) ∧
    convert_to_serializable .nan = .none ∧
    (∀ kvs, convert_to_serializable (.dict kvs) =
      .dict (kvs.map (fun kv => (kv.1, convert_to_serializable kv.2)))) :=
  ⟨dumps_convert_ok, fun _ => rfl, fun _ => rfl, rfl, fun kvs => by
    simp [convert_to_serializable, convertDict_eq_map]⟩

/-- C5 (counterexample): `"-5"` is a numeric string (it parses to the
value `-5`, whose truncation is the integer `-5`), yet the update path's
normalizer maps it to `None` for an integer-policy field instead of
parsing it. -/
theorem negative_numeric_string_update :
    parseFloat "-5" = some (-5 : ℚ) ∧ truncInt (-5 : ℚ) = -5 ∧
    update_clean_field "Phase" (.str "-5") = .kept .none ∧
    update_clean_field "Phase" (.str "-5") ≠ .kept (.int (-5)) := by
  refine ⟨by decide, by decide, rfl, ?_⟩
  intro h
  rw [show update_clean_field "Phase" (.str "-5") = .kept .none from rfl]
    at h
  injection h with h2
  exact PyVal.noConfusion h2

/-- Integer-policy field names are not `"DB ID"`. -/
theorem mem_int_fields_ne_dbid : ∀ k ∈ int_fields, k ≠ "DB ID" := by
  decide

/-- An empty string never parses as a float. -/
theorem parseFloat_empty : parseFloat "" = Option.none := by decide

/-- C5 (amended): for integer-policy fields, the insert path parses any
numeric string by truncating the fractional part; the update path applies
the same truncation only to strings of digits with at most one decimal
point, and maps every other non-empty value — including negative numeric
strings — to `None`; both paths map `""` to `None`; a non-numeric string
fails for that field only (dropped on insert), and each path's cleaning
loop handles the remaining fields of the record unchanged. -/
theorem integer_policy_normalization :
    (∀ k s q, k ∈ int_fields → parseFloat s = some q →
      insert_clean_field k (.str s) = .ok (.kept (.int (truncInt q)))) ∧
    (∀ k, k ∈ int_fields →
      insert_clean_field k (.str "") = .ok (.kept .none) ∧
      update_clean_field k (.str "") = .kept .none) ∧
    (∀ k s q, k ∈ int_fields → parseFloat s = some q →
      looks_numeric_update s = true →
      update_clean_field k (.str s) = .kept (.int (truncInt q))) ∧
    (∀ k s, k ∈ int_fields → s ≠ "" → looks_numeric_update s = false →
      update_clean_field k (.str s) = .kept .none) ∧
    (∀ k s, k ∈ int_fields → s ≠ "" → parseFloat s = Option.none →
      insert_clean_field k (.str s) = .ok .dropped) ∧
    (∀ k v rest, insert_clean_field k v = .ok .dropped →
      insert_clean_map ((k, v) :: rest) = insert_clean_map rest) ∧
    (∀ k v w rest, insert_clean_field k v = .ok (.kept w) →
      insert_clean_map ((k, v) :: rest) =
        (insert_clean_map rest).map (fun tail => (k, w) :: tail)) ∧
    (∀ k v rest, update_clean_field k v = .dropped →
      update_clean_map ((k, v) :: rest) = update_clean_map rest) := by
  refine ⟨?_, ?_, ?_, ?_, ?_, ?_, ?_, ?_⟩
  · intro k s q hk hq
    have hs : ¬(s = "") := by
      intro h
      subst h
      rw [parseFloat_empty] at hq
      exact Option.noConfusion hq
    simp [insert_clean_field, is_empty_str, py_isna, hs, hk, hq]
  · intro k hk
    have hd := mem_int_fields_ne_dbid k hk
    constructor
    · simp [insert_clean_field, is_empty_str, py_isna]
    · simp [update_clean_field, is_empty_str, py_isna, hd]
  · intro k s q hk hq hl
    have hs : ¬(s = "") := by
      intro h
      subst h
      rw [parseFloat_empty] at hq
      exact Option.noConfusion hq
    have hd := mem_int_fields_ne_dbid k hk
    simp [update_clean_field, is_empty_str, py_isna, hs, hk, hq, hl, hd]
  · intro k s hk hs hl
    have hd := mem_int_fields_ne_dbid k hk
    simp [update_clean_field, is_empty_str, py_isna, hs, hk, hl, hd]
  · intro k s hk hs hq
    simp [insert_clean_field, is_empty_str, py_isna, hs, hk, hq]
  · intro k v rest h
    cases hrest : insert_clean_map rest with
    | error e => simp [insert_clean_map, h, hrest]
    | ok tail => simp [insert_clean_map, h, hrest]
  · intro k v w rest h
    cases hrest : insert_clean_map rest with
    | error e => simp [insert_clean_map, h, hrest, Except.map]
    | ok tail => simp [insert_clean_map, h, hrest, Except.map]
  · intro k v rest h
    simp [update_clean_map, h]

/-- C5 (witness): concrete instances — `"12.9"` truncates to `12` on both
paths, `""` maps to `None`, `"abc"` is dropped by the insert path, and a
dropped field leaves the rest of the record's normalization
untouched. -/
theorem integer_policy_normalization_witness :
    insert_clean_field "Frequency (Hz)" (.str "12.9") =
      .ok (.kept (.int 12)) ∧
    update_clean_field "Phase" (.str "12.9") = .kept (.int 12) ∧
    insert_clean_field "Phase" (.str "") = .ok (.kept .none) ∧
    insert_clean_field "Outlet (mm)" (.str "abc") = .ok .dropped ∧
    insert_clean_map [("Outlet (mm)", .str "abc"), ("Model No.", .str "X9")]
      = insert_clean_map [("Model No.", .str "X9")] := by
  refine ⟨?_, ?_, ?_, ?_, ?_⟩
  · exact integer_policy_normalization.1 "Frequency (Hz)" "12.9"
      (mkRat 129 10) (by decide) (by decide)
  · exact integer_policy_normalization.2.2.1 "Phase" "12.9" (mkRat 129 10)
      (by decide) (by decide) (by decide)
  · exact (integer_policy_normalization.2.1 "Phase" (by decide)).1
  · exact integer_policy_normalization.2.2.2.2.1 "Outlet (mm)" "abc"
      (by decide) (by decide) (by decide)
  · exact integer_policy_normalization.2.2.2.2.2.1 "Outlet (mm)"
      (.str "abc") [("Model No.", .str "X9")]
      (integer_policy_normalization.2.2.2.2.1 "Outlet (mm)" "abc"
        (by decide) (by decide) (by decide))

/-- C6: evaluating `update_pump_data` at a one-field update shows that
the "Remove any problematic fields" pass sends a real single-field
`update` to the primary table (the first trace entry) before the final
combined update is issued — the cleaning phase is not free of store
mutations, contradicting the code's own "Simulate update with just this
field" comment. -/
theorem update_trial_pass_mutates_store :
    (update_pump_data env_ok 1 [("HP", .str "5")] Option.none).2 =
      [.updateRow "pump_selection_data" [("HP", .str "5")] 1,
       .updateRow "pump_selection_data" [("HP", .str "5")] 1,
       .auditInsert
         { table_name := "pump_selection_data"
           record_id := .int 1
           operation := "UPDATE"
           old_data := some (.jobj [("DB ID", .jint 1),
             ("Model No.", .jstr "X9"), ("HP", .jstr "4")])
           new_data := some (.jobj [("HP", .jstr "5")])
           modified_by := "anonymous"
           description := some "Updated pump: X9" }] := rfl

/-- C7 (counterexample): on the column `"Frequency (Hz)"` with the raw
value `"12.9"`, the form-driven insert normalizer produces the integer
`12` while the CSV importer's normalizer leaves the string `"12.9"` —
the two paths do not apply the same per-column policy. -/
theorem csv_form_normalization_differ :
    insert_clean_field "Frequency (Hz)" (.str "12.9") =
      .ok (.kept (.int 12)) ∧
    csv_clean_field "Frequency (Hz)" (.str "12.9") = .str "12.9" :=
  ⟨rfl, rfl⟩

/-- C7 (amended): the CSV importer's per-cell normalization agrees with
the form-driven insert normalization on empty strings (both give `None`
for every column) and on the shared policy columns — `Phase`,
`Outlet (mm)`, `Pass Solid Dia(mm)` (integer, truncating) and
`Max Head (M)` (real) — for parseable numeric strings; but the policies
differ elsewhere: the CSV importer integer-parses `Frequency_Hz` where
the form path integer-parses `Frequency (Hz)`, the CSV importer
additionally real-parses `Head Rated/M` and `Q Rated/LPM` which the form
path keeps as text, and an unparseable value in a numeric-policy column
becomes `None` in the CSV path but is dropped by the form path. -/
theorem csv_normalization_partial_agreement :
    (∀ k s q, k ∈ ["Phase", "Outlet (mm)", "Pass Solid Dia(mm)"] →
      parseFloat s = some q →
      csv_clean_field k (.str s) = .int (truncInt q) ∧
      insert_clean_field k (.str s) = .ok (.kept (.int (truncInt q)))) ∧
    (∀ s q, parseFloat s = some q →
      csv_clean_field "Max Head (M)" (.str s) = .float q ∧
      insert_clean_field "Max Head (M)" (.str s) =
        .ok (.kept (.float q))) ∧
    (∀ k, csv_clean_field k (.str "") = .none ∧
      insert_clean_field k (.str "") = .ok (.kept .none)) ∧
    (csv_clean_field "Frequency (Hz)" (.str "12.9") = .str "12.9" ∧
      insert_clean_field "Frequency (Hz)" (.str "12.9") =
        .ok (.kept (.int 12)) ∧
      csv_clean_field "Frequency_Hz" (.str "12.9") = .int 12 ∧
      insert_clean_field "Frequency_Hz" (.str "12.9") =
        .ok (.kept (.str "12.9")) ∧
      csv_clean_field "Head Rated/M" (.str "3.14") =
        .float (mkRat 314 100) ∧
      insert_clean_field "Head Rated/M" (.str "3.14") =
        .ok (.kept (.str "3.14"))) ∧
    (∀ k s, k ∈ csv_int_fields → s ≠ "" → parseFloat s = Option.none →
      csv_clean_field k (.str s) = .none) ∧
    (∀ k s, k ∈ int_fields → s ≠ "" → parseFloat s = Option.none →
      insert_clean_field k (.str s) = .ok .dropped) := by
  have hboth : ∀ k ∈ ["Phase", "Outlet (mm)", "Pass Solid Dia(mm)"],
      k ∈ csv_int_fields ∧ k ∈ int_fields := by decide
  refine ⟨?_, ?_, ?_, ⟨rfl, rfl, rfl, rfl, rfl, rfl⟩, ?_, ?_⟩
  · intro k s q hk hq
    have hs : ¬(s = "") := by
      intro h
      subst h
      rw [parseFloat_empty] at hq
      exact Option.noConfusion hq
    obtain ⟨h1, h2⟩ := hboth k hk
    constructor
    · simp [csv_clean_field, is_empty_str, py_isna, hs, h1, hq]
    · simp [insert_clean_field, is_empty_str, py_isna, hs, h2, hq]
  · intro s q hq
    have hs : ¬(s = "") := by
      intro h
      subst h
      rw [parseFloat_empty] at hq
      exact Option.noConfusion hq
    constructor
    · simp [csv_clean_field, csv_int_fields, csv_float_fields,
        is_empty_str, py_isna, hs, hq]
    · simp [insert_clean_field, int_fields, float_fields, is_empty_str,
        py_isna, hs, hq]
  · intro k
    constructor
    · unfold csv_clean_field
      split_ifs <;> simp_all [is_empty_str, py_isna]
    · simp [insert_clean_field, is_empty_str, py_isna]
  · intro k s hk hs hq
    simp [csv_clean_field, is_empty_str, py_isna, hs, hk, hq]
  · intro k s hk hs hq
    simp [insert_clean_field, is_empty_str, py_isna, hs, hk, hq]

/-- C7 (witness): concrete agreement instances on the shared columns and
a concrete unparseable cell on each path. -/
theorem csv_normalization_partial_agreement_witness :
    (csv_clean_field "Phase" (.str "12.9") = .int 12 ∧
      insert_clean_field "Phase" (.str "12.9") = .ok (.kept (.int 12))) ∧
    (csv_clean_field "Max Head (M)" (.str "3.14") =
        .float (mkRat 314 100) ∧
      insert_clean_field "Max Head (M)" (.str "3.14") =
        .ok (.kept (.float (mkRat 314 100)))) ∧
    csv_clean_field "Phase" (.str "") = .none ∧
    csv_clean_field "Phase" (.str "abc") = .none ∧
    insert_clean_field "Phase" (.str "abc") = .ok .dropped :=
  ⟨csv_normalization_partial_agreement.1 "Phase" "12.9" (mkRat 129 10)
      (by decide) (by decide),
   csv_normalization_partial_agreement.2.1 "3.14" (mkRat 314 100)
      (by decide),
   (csv_normalization_partial_agreement.2.2.1 "Phase").1,
   csv_normalization_partial_agreement.2.2.2.2.1 "Phase" "abc"
      (by decide) (by decide) (by decide),
   csv_normalization_partial_agreement.2.2.2.2.2 "Phase" "abc"
      (by decide) (by decide) (by decide)⟩

/-- C8: the viewer's diff renders one row per key of either snapshot,
shows each side's value (`Option.none`, i.e. "N/A", when the key or the
whole snapshot is missing on that side), and highlights a row exactly
when the key is present in both snapshots with values differing under
Python `==`; an entry with no old payload (INSERT) renders every new key
with an "N/A" old side without raising; and the spec's concrete example
diff marks `HP` changed and `Model No.` unchanged. -/
theorem display_json_diff_spec :
    (∀ od nd rows, display_json_diff od nd = some rows →
      (∀ k, (∃ r ∈ rows, r.key = k) ↔
        (k ∈ (parsed_dict od).map Prod.fst ∨
         k ∈ (parsed_dict nd).map Prod.fst)) ∧
      (∀ r ∈ rows,
        r.old_shown = (parsed_dict od).lookup r.key ∧
        r.new_shown = (parsed_dict nd).lookup r.key ∧
        (r.changed = true ↔ ∃ v w,
          (parsed_dict od).lookup r.key = some v ∧
          (parsed_dict nd).lookup r.key = some w ∧
          py_eq v w = false))) ∧
    (∀ ns, ∃ rows,
      display_json_diff Option.none (some (.jobj ns)) = some rows ∧
      ∀ r ∈ rows, r.old_shown = Option.none) ∧
    display_json_diff
        (some (.jobj [("Model No.", .jstr "A1"), ("HP", .jstr "5")]))
        (some (.jobj [("Model No.", .jstr "A1"), ("HP", .jstr "7")])) =
      some [{ key := "HP"
              old_shown := some (.str "5")
              new_shown := some (.str "7")
              changed := true },
            { key := "Model No."
              old_shown := some (.str "A1")
              new_shown := some (.str "A1")
              changed := false }] := by
  have hmem : ∀ (od nd : Option Json) (k : String),
      k ∈ List.insertionSort (fun a b => pystr_le a b = true)
        (((parsed_dict od).map Prod.fst ++
          (parsed_dict nd).map Prod.fst).dedup) ↔
      (k ∈ (parsed_dict od).map Prod.fst ∨
       k ∈ (parsed_dict nd).map Prod.fst) := by
    intro od nd k
    rw [(List.perm_insertionSort _ _).mem_iff, List.mem_dedup,
      List.mem_append]
  refine ⟨?_, ?_, ?_⟩
  · intro od nd rows h
    simp only [display_json_diff] at h
    by_cases hc : (od.isNone && nd.isNone) = true
    · rw [if_pos hc] at h
      exact Option.noConfusion h
    · rw [if_neg hc] at h
      injection h with h
      subst h
      constructor
      · intro k
        constructor
        · rintro ⟨r, hr, rfl⟩
          obtain ⟨k', hk', rfl⟩ := List.mem_map.1 hr
          exact (hmem od nd k').1 hk'
        · intro hk
          exact ⟨_, List.mem_map_of_mem _ ((hmem od nd k).2 hk), rfl⟩
      · intro r hr
        obtain ⟨k', hk', rfl⟩ := List.mem_map.1 hr
        refine ⟨rfl, rfl, ?_⟩
        cases hov : (parsed_dict od).lookup k' with
        | none =>
          cases hnv : (parsed_dict nd).lookup k' with
          | none => simp [hov, hnv]
          | some w => simp [hov, hnv]
        | some v =>
          cases hnv : (parsed_dict nd).lookup k' with
          | none => simp [hov, hnv]
          | some w => simp [hov, hnv, Bool.not_eq_true']
  · intro ns
    refine ⟨_, rfl, ?_⟩
    intro r hr
    obtain ⟨k', hk', rfl⟩ := List.mem_map.1 hr
    rfl
  · rfl

/-- C8 (witness): the general diff description applied to the spec's
concrete example — the `HP` row exists and is highlighted because the two
values differ, and the `Model No.` row is not highlighted. -/
theorem display_json_diff_spec_witness :
    (∃ r ∈ [({ key := "HP"
               old_shown := some (.str "5")
               new_shown := some (.str "7")
               changed := true } : DiffRow),
            { key := "Model No."
              old_shown := some (.str "A1")
              new_shown := some (.str "A1")
              changed := false }], r.key = "HP") ∧
    (({ key := "HP"
        old_shown := some (.str "5")
        new_shown := some (.str "7")
        changed := true } : DiffRow).changed = true ↔
      ∃ v w,
        (parsed_dict (some (.jobj [("Model No.", .jstr "A1"),
          ("HP", .jstr "5")]))).lookup "HP" = some v ∧
        (parsed_dict (some (.jobj [("Model No.", .jstr "A1"),
          ("HP", .jstr "7")]))).lookup "HP" = some w ∧
        py_eq v w = false) :=
  ⟨((display_json_diff_spec.1
      (some (.jobj [("Model No.", .jstr "A1"), ("HP", .jstr "5")]))
      (some (.jobj [("Model No.", .jstr "A1"), ("HP", .jstr "7")]))
      _ rfl).1 "HP").2 (Or.inl (by decide)),
   ((display_json_diff_spec.1
      (some (.jobj [("Model No.", .jstr "A1"), ("HP", .jstr "5")]))
      (some (.jobj [("Model No.", .jstr "A1"), ("HP", .jstr "7")]))
      _ rfl).2 _ (List.mem_cons_self _ _)).2.2⟩

end DBEditor
